import Mathlib

set_option linter.unusedVariables false

/-!
Shallow embedding of the MABackend server (src/index.js): the User
schema, the register and login routes, the bcryptjs hasher and the
jsonwebtoken issuer as those routes use them, and the error paths of
the video-upload route.  HTTP responses are modelled by explicit
result types carrying the status code and the JSON body fields the
route writes.
-/

/-- Bcrypt hash value, modelling the hash string that bcryptjs returns
(format version implicit; cost factor, salt, digest of the plaintext).
Modelled from the spec: the bcryptjs library is not part of this
repository.  Per the Password Hasher contract (spec section 4.2) the hash is
randomized per call through the salt, and verification recomputes the
digest of the supplied plaintext against the stored one. -/
structure HashString where
  cost : Nat
  salt : Nat
  digest : Nat
deriving Repr, DecidableEq

/-- Digest of a plaintext: a deterministic function of the character
sequence, standing in for the Blowfish-based bcrypt digest. -/
def bcryptDigest (plaintext : String) : Nat :=
  plaintext.data.foldl (fun a c => a * 1000003 + c.toNat + 1) 5381

/-- Model of bcrypt.hash(password, 10): the salt argument models the salt
that bcryptjs draws at random inside each call. -/
def bcryptHash (plaintext : String) (cost salt : Nat) : HashString :=
  ⟨cost, salt, bcryptDigest plaintext⟩

/-- Model of bcrypt.compare(password, storedHash): recomputes the digest of
the supplied plaintext and compares it with the stored digest.  Total:
it returns false rather than throwing on a mismatching value. -/
def bcryptCompare (plaintext : String) (h : HashString) : Bool :=
  bcryptDigest plaintext == h.digest

/-- The textual form of a bcrypt hash, dollar-separated as in the
strings bcryptjs produces. -/
def HashString.render (h : HashString) : String :=
  "$2b$" ++ toString h.cost ++ "$" ++ toString h.salt ++ "$" ++ toString h.digest

/-- Signed JWT as produced by jwt.sign({ userId }, key, { expiresIn: "24h" }).
Modelled from the spec: the jsonwebtoken library is not part of this
repository.  Per the Token Issuer contract (spec section 4.3) the token embeds
the subject identity and an absolute expiry and is signed with the
server-held secret; `key` records which secret signed it. -/
structure Token where
  userId : Nat
  iat : Nat
  exp : Nat
  key : String
deriving Repr, DecidableEq

/-- Model of jwt.sign: issue a token for `userId` at time `now` (seconds),
expiring `expiresInSeconds` later. -/
def jwtSign (userId : Nat) (key : String) (expiresInSeconds now : Nat) : Token :=
  ⟨userId, now, now + expiresInSeconds, key⟩

/-- 24 hours in seconds, the "24h" of { expiresIn: "24h" }. -/
def hours24 : Nat := 24 * 60 * 60

/-- Model of jwt.verify: returns the embedded subject when the token was
signed with `key` and its expiry has not passed at time `now`
(jsonwebtoken treats a token as expired once now is at or past exp);
otherwise the token is invalid. -/
def jwtValidate (t : Token) (key : String) (now : Nat) : Option Nat :=
  if t.key = key ∧ now < t.exp then some t.userId else none

/-- A User document (the mongoose User model, src/index.js lines 32-39):
unique username and email, the bcrypt password hash, and the three
denormalized counters with default 0.  `id` models `_id`. -/
structure UserRec where
  id : Nat
  username : String
  email : String
  password : HashString
  videos : Int
  followers : Int
  following : Int
deriving Repr, DecidableEq

/-- The users collection plus the id generator for new documents. -/
structure Store where
  users : List UserRec
  nextId : Nat
deriving Repr, DecidableEq

/-- Process environment as far as the routes read it. -/
structure Env where
  jwtSecret : Option String
deriving Repr, DecidableEq

/-- The signing key expression `process.env.JWT_SECRET || "secret"`:
an unset variable and the empty string are both falsy in JavaScript,
so both fall back to the literal "secret". -/
def signingKey (env : Env) : String :=
  match env.jwtSecret with
  | some s => if s = "" then "secret" else s
  | none => "secret"

/-- Model of `User.findOne({ $or: [{ email }, { username }] })`:
first document matching either field. -/
def findOneByEmailOrUsername (users : List UserRec) (email username : String) :
    Option UserRec :=
  users.find? (fun u => u.email == email || u.username == username)

/-- Model of `User.findOne({ username })`. -/
def findOneByUsername (users : List UserRec) (username : String) : Option UserRec :=
  users.find? (fun u => u.username == username)

/-- Outcome of POST /api/register: the status code and the JSON body
(either a message, or the token together with the full user document). -/
inductive RegisterResult where
  | invalid (status : Nat) (message : String)
  | conflict (status : Nat) (message : String)
  | success (status : Nat) (token : Token) (user : UserRec)
deriving Repr, DecidableEq

/-- The user document contained in a register response body, if any. -/
def RegisterResult.userRecord : RegisterResult → Option UserRec
  | .success _ _ u => some u
  | _ => none

/-- Outcome of POST /api/login. -/
inductive LoginResult where
  | authError (status : Nat) (message : String)
  | success (status : Nat) (token : Token) (user : UserRec)
deriving Repr, DecidableEq

/-- The user document contained in a login response body, if any. -/
def LoginResult.userRecord : LoginResult → Option UserRec
  | .success _ _ u => some u
  | _ => none

/-- POST /api/register (src/index.js lines 42-62): reject when any field is
missing or empty (falsy), reject when a document already matches the
email or the username, otherwise hash the password, create the user with
zeroed counters, sign a 24h token on the new `_id`, and answer 201 with
the token and the full user document.  `salt` models the salt bcryptjs
draws inside this call and `now` the clock at signing time. -/
def register (env : Env) (st : Store) (salt now : Nat)
    (username email password : String) : RegisterResult × Store :=
  if username = "" ∨ email = "" ∨ password = "" then
    (.invalid 400 "All fields required", st)
  else
    match findOneByEmailOrUsername st.users email username with
    | some _ => (.conflict 400 "User already exists", st)
    | none =>
      (.success 201
        (jwtSign st.nextId (signingKey env) hours24 now)
        ⟨st.nextId, username, email, bcryptHash password 10 salt, 0, 0, 0⟩,
       ⟨st.users ++ [⟨st.nextId, username, email, bcryptHash password 10 salt, 0, 0, 0⟩],
        st.nextId + 1⟩)

/-- POST /api/login (src/index.js lines 65-81): look the user up by
username (401 "User not found" when absent), compare the password against
the stored hash (401 "Invalid password" on mismatch), otherwise sign a
24h token on the user's `_id` and answer 200 with the token and the full
user document.  The store is returned unchanged on every path. -/
def login (env : Env) (st : Store) (now : Nat)
    (username password : String) : LoginResult × Store :=
  match findOneByUsername st.users username with
  | none => (.authError 401 "User not found", st)
  | some user =>
    if bcryptCompare password user.password then
      (.success 200 (jwtSign user.id (signingKey env) hours24 now) user, st)
    else
      (.authError 401 "Invalid password", st)

/-- A JSON error-path response: status, `message` field, and the `error`
field when the route includes the caught error object in the body. -/
structure JsonResponse where
  status : Nat
  message : String
  errorDetail : Option String
deriving Repr, DecidableEq

/-- The catch clause of /api/register (src/index.js lines 58-61): logs the
error server-side and answers a generic 500.  Returns the log line
together with the response. -/
def registerCatch (err : String) : String × JsonResponse :=
  ("Register error: " ++ err, ⟨500, "Registration failed", none⟩)

/-- The catch clause of /api/login (src/index.js lines 77-80). -/
def loginCatch (err : String) : String × JsonResponse :=
  ("Login error: " ++ err, ⟨500, "Login failed", none⟩)

/-- POST /api/videos/upload (src/index.js lines 84-117), reduced to its
response logic: 400 when no file was sent; on a Cloudinary error the route
answers 500 with the error object included in the body
(`res.status(500).json({ message: "Upload failed", error: err })`);
on success 200.  `cloudinaryResult` models the callback outcome. -/
def uploadVideo (file : Option String)
    (cloudinaryResult : Except String (String × String)) : JsonResponse :=
  match file with
  | none => ⟨400, "No file uploaded", none⟩
  | some _ =>
    match cloudinaryResult with
    | .error err => ⟨500, "Upload failed", some err⟩
    | .ok _ => ⟨200, "Upload successful", none⟩

/-- The catch clause of /api/videos/upload (src/index.js lines 113-116):
also includes the error object in the client-facing body. -/
def uploadCatch (err : String) : String × JsonResponse :=
  ("Upload error: " ++ err, ⟨500, "Upload error", some err⟩)

/-- One incoming request relevant to the credential store. -/
inductive Op where
  | reg (salt now : Nat) (username email password : String)
  | log (now : Nat) (username password : String)
deriving Repr, DecidableEq

/-- The store after handling one request. -/
def step (env : Env) (st : Store) : Op → Store
  | .reg salt now u e p => (register env st salt now u e p).2
  | .log now u p => (login env st now u p).2

/-- The store after handling a sequence of requests. -/
def runOps (env : Env) (st : Store) : List Op → Store
  | [] => st
  | op :: ops => runOps env (step env st op) ops

/-- The User-record invariants of the spec (section 3): usernames and emails
are pairwise distinct, every stored password hash is a non-empty
string, and the denormalized counters are non-negative. -/
def Invariant (st : Store) : Prop :=
  st.users.Pairwise (fun a b => a.username ≠ b.username ∧ a.email ≠ b.email) ∧
  (∀ u ∈ st.users, u.password.render ≠ "") ∧
  (∀ u ∈ st.users, 0 ≤ u.videos ∧ 0 ≤ u.followers ∧ 0 ≤ u.following)

/-! ## Helper lemmas -/

/-- A rendered bcrypt hash string is never empty. -/
theorem HashString.render_ne_empty (h : HashString) : h.render ≠ "" := by
  intro hc
  have hlen := congrArg String.length hc
  simp only [HashString.render, String.length_append] at hlen
  have h4 : ("$2b$" : String).length = 4 := rfl
  have h1 : ("$" : String).length = 1 := rfl
  have h0 : ("" : String).length = 0 := rfl
  rw [h4, h1, h0] at hlen
  omega

/-- Inversion: a successful register response comes from the insert branch,
with the token signed on the fresh id and the user built from the inputs. -/
theorem register_success_inv {env : Env} {st : Store} {salt now : Nat}
    {username email password : String} {s : Nat} {t : Token} {usr : UserRec} {st' : Store}
    (h : register env st salt now username email password = (.success s t usr, st')) :
    s = 201 ∧ t = jwtSign st.nextId (signingKey env) hours24 now ∧
    usr = ⟨st.nextId, username, email, bcryptHash password 10 salt, 0, 0, 0⟩ ∧
    st' = ⟨st.users ++ [usr], st.nextId + 1⟩ ∧
    findOneByEmailOrUsername st.users email username = none := by
  unfold register at h
  split at h
  · simp at h
  · split at h
    · simp at h
    · rename_i hfind
      simp only [Prod.mk.injEq, RegisterResult.success.injEq] at h
      obtain ⟨⟨hs, ht, hu⟩, hst⟩ := h
      subst hs; subst ht; subst hu; subst hst
      exact ⟨rfl, rfl, rfl, rfl, hfind⟩

/-- Inversion: a successful login response comes from the branch where the
lookup found the user and the password compared true. -/
theorem login_success_inv {env : Env} {st : Store} {now : Nat}
    {username password : String} {s : Nat} {t : Token} {usr : UserRec} {st' : Store}
    (h : login env st now username password = (.success s t usr, st')) :
    s = 200 ∧ t = jwtSign usr.id (signingKey env) hours24 now ∧ st' = st ∧
    findOneByUsername st.users username = some usr ∧
    bcryptCompare password usr.password = true := by
  unfold login at h
  split at h
  · simp at h
  · rename_i user hfind
    split at h
    · rename_i hcmp
      simp only [Prod.mk.injEq, LoginResult.success.injEq] at h
      obtain ⟨⟨hs, ht, hu⟩, hst⟩ := h
      subst hs; subst hu; subst hst; subst ht
      exact ⟨rfl, rfl, rfl, hfind, hcmp⟩
    · simp at h

/-! ## Claims -/

/-- Claim C3: a register call with an empty username, email, or password is
rejected with the 400 "All fields required" validation response, and nothing
else happens: the returned store is the input store (no lookup result is
consumed, nothing is hashed or inserted) and the result carries no token or
user document. -/
theorem register_rejects_empty_fields (env : Env) (st : Store) (salt now : Nat)
    (username email password : String)
    (h : username = "" ∨ email = "" ∨ password = "") :
    register env st salt now username email password =
      (.invalid 400 "All fields required", st) := by
  unfold register
  rw [if_pos h]

/-- Witness for C3 at the concrete input (empty username). -/
theorem register_rejects_empty_fields_witness :
    (("" : String) = "" ∨ ("a@x.com" : String) = "" ∨ ("pw" : String) = "") ∧
    register ⟨none⟩ ⟨[], 0⟩ 0 0 "" "a@x.com" "pw" =
      (.invalid 400 "All fields required", ⟨[], 0⟩) :=
  ⟨Or.inl rfl,
   register_rejects_empty_fields ⟨none⟩ ⟨[], 0⟩ 0 0 "" "a@x.com" "pw" (Or.inl rfl)⟩

/-- Claim C2: a register call (with non-empty fields) whose username or email
already matches an existing record fails with the 400 "User already exists"
conflict response, the store is returned unchanged, and the count of matching
records stays exactly 1. -/
theorem register_conflict_no_insert (env : Env) (st : Store) (salt now : Nat)
    (username email password : String)
    (hu : username ≠ "") (he : email ≠ "") (hp : password ≠ "")
    (hcount : st.users.countP (fun u => u.email == email || u.username == username) = 1) :
    register env st salt now username email password =
      (.conflict 400 "User already exists", st) ∧
    ((register env st salt now username email password).2).users.countP
      (fun u => u.email == email || u.username == username) = 1 := by
  have hex : ∃ u ∈ st.users, (u.email == email || u.username == username) = true :=
    List.countP_pos_iff.mp (by omega)
  obtain ⟨u, hmem, hpu⟩ := hex
  have hfound : ∃ v, findOneByEmailOrUsername st.users email username = some v := by
    unfold findOneByEmailOrUsername
    cases hf : st.users.find? (fun u => u.email == email || u.username == username) with
    | some v => exact ⟨v, rfl⟩
    | none => exact absurd hpu (List.find?_eq_none.mp hf u hmem)
  obtain ⟨v, hv⟩ := hfound
  have hcond : ¬(username = "" ∨ email = "" ∨ password = "") := by
    push_neg
    exact ⟨hu, he, hp⟩
  have hreg : register env st salt now username email password =
      (.conflict 400 "User already exists", st) := by
    unfold register
    rw [if_neg hcond, hv]
  refine ⟨hreg, ?_⟩
  rw [hreg]
  exact hcount

/-- Witness for C2: registering "alice" again (fresh email) on a store that
already holds "alice" is rejected and the store keeps exactly one match. -/
theorem register_conflict_no_insert_witness :
    register ⟨none⟩ ⟨[⟨0, "alice", "a@x.com", bcryptHash "pw123" 10 0, 0, 0, 0⟩], 1⟩
        1 9 "alice" "other@x.com" "pw456" =
      (.conflict 400 "User already exists",
        ⟨[⟨0, "alice", "a@x.com", bcryptHash "pw123" 10 0, 0, 0, 0⟩], 1⟩) ∧
    ((register ⟨none⟩ ⟨[⟨0, "alice", "a@x.com", bcryptHash "pw123" 10 0, 0, 0, 0⟩], 1⟩
        1 9 "alice" "other@x.com" "pw456").2).users.countP
      (fun u => u.email == "other@x.com" || u.username == "alice") = 1 :=
  register_conflict_no_insert ⟨none⟩
    ⟨[⟨0, "alice", "a@x.com", bcryptHash "pw123" 10 0, 0, 0, 0⟩], 1⟩ 1 9
    "alice" "other@x.com" "pw456" (by decide) (by decide) (by decide) (by decide)

/-- Claim C1: for a valid (username, email, password) triple matching no
existing record, register succeeds with 201 and a token, and a subsequent
login with the same username and password succeeds with a token whose
embedded userId is the id of the user record register created. -/
theorem register_then_login_roundtrip (env : Env) (st : Store) (salt now now2 : Nat)
    (username email password : String)
    (hu : username ≠ "") (he : email ≠ "") (hp : password ≠ "")
    (hfresh : ∀ u ∈ st.users, u.username ≠ username ∧ u.email ≠ email) :
    ∃ t usr st2,
      register env st salt now username email password = (.success 201 t usr, st2) ∧
      usr.username = username ∧
      ∃ t2, login env st2 now2 username password = (.success 200 t2 usr, st2) ∧
        t2.userId = usr.id := by
  have hcond : ¬(username = "" ∨ email = "" ∨ password = "") := by
    push_neg
    exact ⟨hu, he, hp⟩
  have hfind : findOneByEmailOrUsername st.users email username = none := by
    unfold findOneByEmailOrUsername
    refine List.find?_eq_none.mpr ?_
    intro x hx
    obtain ⟨h1, h2⟩ := hfresh x hx
    simp [h1, h2]
  refine ⟨jwtSign st.nextId (signingKey env) hours24 now,
    ⟨st.nextId, username, email, bcryptHash password 10 salt, 0, 0, 0⟩,
    ⟨st.users ++ [⟨st.nextId, username, email, bcryptHash password 10 salt, 0, 0, 0⟩],
      st.nextId + 1⟩, ?_, rfl, ?_⟩
  · unfold register
    rw [if_neg hcond, hfind]
  · refine ⟨jwtSign st.nextId (signingKey env) hours24 now2, ?_, rfl⟩
    have h1 : st.users.find? (fun u => u.username == username) = none := by
      refine List.find?_eq_none.mpr ?_
      intro x hx
      simp [(hfresh x hx).1]
    have hfind2 : findOneByUsername
        (st.users ++ [⟨st.nextId, username, email, bcryptHash password 10 salt, 0, 0, 0⟩])
        username =
        some ⟨st.nextId, username, email, bcryptHash password 10 salt, 0, 0, 0⟩ := by
      unfold findOneByUsername
      rw [List.find?_append, h1]
      have hp2 := List.find?_cons_of_pos
        (l := ([] : List UserRec))
        (p := fun u => u.username == username)
        (a := ⟨st.nextId, username, email, bcryptHash password 10 salt, 0, 0, 0⟩)
        (by simp)
      simp [hp2]
    unfold login
    rw [hfind2]
    have hcmp : bcryptCompare password (bcryptHash password 10 salt) = true := by
      simp [bcryptCompare, bcryptHash]
    simp only [hcmp, if_true]

/-- Witness for C1 at the concrete triple (alice, a@x.com, pw123) on the
empty store. -/
theorem register_then_login_roundtrip_witness :
    ("alice" : String) ≠ "" ∧
    ∃ t usr st2,
      register ⟨none⟩ ⟨[], 0⟩ 0 0 "alice" "a@x.com" "pw123" = (.success 201 t usr, st2) ∧
      usr.username = "alice" ∧
      ∃ t2, login ⟨none⟩ st2 5 "alice" "pw123" = (.success 200 t2 usr, st2) ∧
        t2.userId = usr.id :=
  ⟨by decide,
   register_then_login_roundtrip ⟨none⟩ ⟨[], 0⟩ 0 0 5 "alice" "a@x.com" "pw123"
     (by decide) (by decide) (by decide) (by intro u h; cases h)⟩

/-- Claim C4: login with an unknown username fails 401 "User not found";
login with a known username but a password that does not verify against the
stored hash fails 401 "Invalid password"; in both cases the result carries
no token or user document and the store is returned unchanged. -/
theorem login_failure_modes (env : Env) (st : Store) (now : Nat)
    (username password : String) :
    (findOneByUsername st.users username = none →
      login env st now username password = (.authError 401 "User not found", st)) ∧
    (∀ usr, findOneByUsername st.users username = some usr →
      bcryptCompare password usr.password = false →
      login env st now username password = (.authError 401 "Invalid password", st)) := by
  constructor
  · intro h
    unfold login
    rw [h]
  · intro usr h hbad
    unfold login
    rw [h]
    simp [hbad]

/-- Witness for C4: on a store holding only alice, logging in as bob fails
"User not found" and logging in as alice with a wrong password fails
"Invalid password". -/
theorem login_failure_modes_witness :
    login ⟨none⟩ ⟨[⟨0, "alice", "a@x.com", bcryptHash "pw123" 10 0, 0, 0, 0⟩], 1⟩
        3 "bob" "pw" =
      (.authError 401 "User not found",
        ⟨[⟨0, "alice", "a@x.com", bcryptHash "pw123" 10 0, 0, 0, 0⟩], 1⟩) ∧
    login ⟨none⟩ ⟨[⟨0, "alice", "a@x.com", bcryptHash "pw123" 10 0, 0, 0, 0⟩], 1⟩
        3 "alice" "wrong" =
      (.authError 401 "Invalid password",
        ⟨[⟨0, "alice", "a@x.com", bcryptHash "pw123" 10 0, 0, 0, 0⟩], 1⟩) :=
  ⟨(login_failure_modes ⟨none⟩
      ⟨[⟨0, "alice", "a@x.com", bcryptHash "pw123" 10 0, 0, 0, 0⟩], 1⟩ 3 "bob" "pw").1
      (by decide),
   (login_failure_modes ⟨none⟩
      ⟨[⟨0, "alice", "a@x.com", bcryptHash "pw123" 10 0, 0, 0, 0⟩], 1⟩ 3 "alice" "wrong").2
      ⟨0, "alice", "a@x.com", bcryptHash "pw123" 10 0, 0, 0, 0⟩ (by decide) (by decide)⟩

/-- Claim C5: hashing the same plaintext in two calls (which draw distinct
salts) produces two different hash values, and the plaintext verifies
against both. -/
theorem bcrypt_two_hashes_distinct_both_verify (plaintext : String) (cost s1 s2 : Nat)
    (hs : s1 ≠ s2) :
    bcryptHash plaintext cost s1 ≠ bcryptHash plaintext cost s2 ∧
    bcryptCompare plaintext (bcryptHash plaintext cost s1) = true ∧
    bcryptCompare plaintext (bcryptHash plaintext cost s2) = true := by
  refine ⟨?_, ?_, ?_⟩
  · intro h
    exact hs (congrArg HashString.salt h)
  · simp [bcryptCompare, bcryptHash]
  · simp [bcryptCompare, bcryptHash]

/-- Witness for C5 at plaintext "pw123" with salts 0 and 1. -/
theorem bcrypt_two_hashes_distinct_both_verify_witness :
    (0 : Nat) ≠ 1 ∧
    (bcryptHash "pw123" 10 0 ≠ bcryptHash "pw123" 10 1 ∧
     bcryptCompare "pw123" (bcryptHash "pw123" 10 0) = true ∧
     bcryptCompare "pw123" (bcryptHash "pw123" 10 1) = true) :=
  ⟨by decide, bcrypt_two_hashes_distinct_both_verify "pw123" 10 0 1 (by decide)⟩

/-- Claim C6 fails on the code: the 201 register response returns the full
user document, password hash included.  At the concrete input below the
response's user record carries exactly the hash that was stored for it,
and that hash is a non-empty string. -/
theorem register_response_exposes_hash :
    ((register ⟨none⟩ ⟨[], 0⟩ 0 0 "alice" "a@x.com" "pw123").1).userRecord =
      some ⟨0, "alice", "a@x.com", bcryptHash "pw123" 10 0, 0, 0, 0⟩ ∧
    (bcryptHash "pw123" 10 0).render ≠ "" ∧
    ((register ⟨none⟩ ⟨[], 0⟩ 0 0 "alice" "a@x.com" "pw123").2).users.map
      UserRec.password = [bcryptHash "pw123" 10 0] := by
  refine ⟨rfl, ?_, rfl⟩
  decide

/-- Claim C7: every token issued by a successful register or login expires
exactly 24 hours after its issue time; validation with the signing key
returns the subject before that horizon and Invalid from the horizon on. -/
theorem issued_tokens_ttl_24h (env : Env) (st : Store) (salt now now2 : Nat)
    (username email password : String) :
    (∀ t usr st',
      register env st salt now username email password = (.success 201 t usr, st') →
      t.iat = now ∧ t.exp = now + hours24 ∧
      (∀ tm, tm < now + hours24 → jwtValidate t (signingKey env) tm = some usr.id) ∧
      (∀ tm, now + hours24 ≤ tm → jwtValidate t (signingKey env) tm = none)) ∧
    (∀ t usr st',
      login env st now2 username password = (.success 200 t usr, st') →
      t.iat = now2 ∧ t.exp = now2 + hours24 ∧
      (∀ tm, tm < now2 + hours24 → jwtValidate t (signingKey env) tm = some usr.id) ∧
      (∀ tm, now2 + hours24 ≤ tm → jwtValidate t (signingKey env) tm = none)) := by
  constructor
  · intro t usr st' h
    obtain ⟨-, ht, hu, -, -⟩ := register_success_inv h
    subst ht; subst hu
    refine ⟨rfl, rfl, ?_, ?_⟩
    · intro tm htm
      simp [jwtValidate, jwtSign, htm]
    · intro tm htm
      have hnot : ¬ (tm < now + hours24) := by omega
      simp [jwtValidate, jwtSign, hnot]
  · intro t usr st' h
    obtain ⟨-, ht, -, -, -⟩ := login_success_inv h
    subst ht
    refine ⟨rfl, rfl, ?_, ?_⟩
    · intro tm htm
      simp [jwtValidate, jwtSign, htm]
    · intro tm htm
      have hnot : ¬ (tm < now2 + hours24) := by omega
      simp [jwtValidate, jwtSign, hnot]

/-- Witness for C7: the token of the concrete registration validates at
second 100 and is invalid once 24 hours have elapsed. -/
theorem issued_tokens_ttl_24h_witness :
    jwtValidate (jwtSign 0 (signingKey ⟨none⟩) hours24 0) (signingKey ⟨none⟩) 100 =
      some 0 ∧
    jwtValidate (jwtSign 0 (signingKey ⟨none⟩) hours24 0) (signingKey ⟨none⟩) hours24 =
      none := by
  have h := (issued_tokens_ttl_24h ⟨none⟩ ⟨[], 0⟩ 0 0 0 "alice" "a@x.com" "pw123").1
    (jwtSign 0 (signingKey ⟨none⟩) hours24 0)
    ⟨0, "alice", "a@x.com", bcryptHash "pw123" 10 0, 0, 0, 0⟩
    ⟨[⟨0, "alice", "a@x.com", bcryptHash "pw123" 10 0, 0, 0, 0⟩], 1⟩ rfl
  exact ⟨h.2.2.1 100 (by decide), h.2.2.2 hours24 (by simp)⟩

/-- Login never writes to the store, on any of its paths. -/
theorem login_preserves_store (env : Env) (st : Store) (now : Nat) (u p : String) :
    (login env st now u p).2 = st := by
  unfold login
  split
  · rfl
  · split <;> rfl

/-- Register preserves the User-record invariants on every path. -/
theorem register_preserves_invariant (env : Env) (st : Store) (salt now : Nat)
    (u e p : String) (h : Invariant st) :
    Invariant (register env st salt now u e p).2 := by
  unfold register
  split
  · exact h
  · split
    · exact h
    · rename_i hfind
      have hfresh : ∀ x ∈ st.users, ¬((x.email == e || x.username == u) = true) :=
        List.find?_eq_none.mp hfind
      obtain ⟨hpw, hne, hcnt⟩ := h
      refine ⟨?_, ?_, ?_⟩
      · rw [List.pairwise_append]
        refine ⟨hpw, by simp, ?_⟩
        intro a ha b hb
        rw [List.mem_singleton] at hb
        subst hb
        have hx := hfresh a ha
        simp only [Bool.or_eq_true, beq_iff_eq, not_or] at hx
        exact ⟨hx.2, hx.1⟩
      · intro x hx
        rw [List.mem_append] at hx
        rcases hx with hx | hx
        · exact hne x hx
        · rw [List.mem_singleton] at hx
          subst hx
          exact HashString.render_ne_empty _
      · intro x hx
        rw [List.mem_append] at hx
        rcases hx with hx | hx
        · exact hcnt x hx
        · rw [List.mem_singleton] at hx
          subst hx
          exact ⟨le_refl 0, le_refl 0, le_refl 0⟩

/-- One request, either kind, preserves the invariants. -/
theorem step_preserves_invariant (env : Env) (st : Store) (op : Op)
    (h : Invariant st) : Invariant (step env st op) := by
  cases op with
  | reg salt now u e p => exact register_preserves_invariant env st salt now u e p h
  | log now u p =>
    rw [show step env st (Op.log now u p) = st from login_preserves_store env st now u p]
    exact h

/-- Any sequence of requests preserves the invariants. -/
theorem runOps_preserves_invariant (env : Env) (ops : List Op) :
    ∀ st, Invariant st → Invariant (runOps env st ops) := by
  induction ops with
  | nil => intro st h; exact h
  | cons op ops ih =>
    intro st h
    exact ih _ (step_preserves_invariant env st op h)

/-- Claim C8: starting from a store satisfying the User-record invariants,
any sequence of register and login requests keeps them (distinct usernames,
distinct emails, non-empty stored hash strings, non-negative counters),
and the user record a successful register creates has all three counters
zero and a non-empty hash. -/
theorem store_invariants_preserved (env : Env) (st : Store) (ops : List Op)
    (h : Invariant st) :
    Invariant (runOps env st ops) ∧
    (∀ salt now u e p t usr st',
      register env st salt now u e p = (.success 201 t usr, st') →
      usr.videos = 0 ∧ usr.followers = 0 ∧ usr.following = 0 ∧
      usr.password.render ≠ "") := by
  refine ⟨runOps_preserves_invariant env ops st h, ?_⟩
  intro salt now u e p t usr st' hr
  obtain ⟨-, -, hu, -, -⟩ := register_success_inv hr
  subst hu
  exact ⟨rfl, rfl, rfl, HashString.render_ne_empty _⟩

/-- Witness for C8: a concrete three-request run from the empty store
(register alice, login alice, a conflicting second registration). -/
theorem store_invariants_preserved_witness :
    Invariant (runOps ⟨none⟩ ⟨[], 0⟩
      [Op.reg 0 0 "alice" "a@x.com" "pw123", Op.log 5 "alice" "pw123",
       Op.reg 1 9 "alice" "other@x.com" "pw456"]) ∧
    (∀ salt now u e p t usr st',
      register ⟨none⟩ ⟨[], 0⟩ salt now u e p = (.success 201 t usr, st') →
      usr.videos = 0 ∧ usr.followers = 0 ∧ usr.following = 0 ∧
      usr.password.render ≠ "") :=
  store_invariants_preserved ⟨none⟩ ⟨[], 0⟩
    [Op.reg 0 0 "alice" "a@x.com" "pw123", Op.log 5 "alice" "pw123",
     Op.reg 1 9 "alice" "other@x.com" "pw456"]
    (by unfold Invariant; refine ⟨List.Pairwise.nil, ?_, ?_⟩ <;> simp)

/-- Claim C9 fails on the code: a Cloudinary failure during upload is
answered with a 500 whose body includes the underlying error object
(`error: err`), and the route's catch clause does the same, so internal
error details do reach the client on the upload path. -/
theorem upload_error_leaks_details :
    uploadVideo (some "clip.mp4") (.error "storage driver failure") =
      ⟨500, "Upload failed", some "storage driver failure"⟩ ∧
    (uploadCatch "storage driver failure").2.errorDetail =
      some "storage driver failure" :=
  ⟨rfl, rfl⟩

/-- Claim C9 as amended: register and login catch internal failures at the
request boundary, log them, and answer a generic 500 carrying no error
details; the upload route also catches and logs failures but includes the
underlying error object in its 500 response bodies. -/
theorem error_boundary_policy (err : String) :
    (registerCatch err).2 = ⟨500, "Registration failed", none⟩ ∧
    (registerCatch err).1 = "Register error: " ++ err ∧
    (loginCatch err).2 = ⟨500, "Login failed", none⟩ ∧
    (loginCatch err).1 = "Login error: " ++ err ∧
    (∀ f, uploadVideo (some f) (.error err) = ⟨500, "Upload failed", some err⟩) ∧
    (uploadCatch err).1 = "Upload error: " ++ err ∧
    (uploadCatch err).2 = ⟨500, "Upload error", some err⟩ :=
  ⟨rfl, rfl, rfl, rfl, fun f => rfl, rfl, rfl⟩

/-- Claim C10: with JWT_SECRET unset, the signing key both routes use is
the fixed literal "secret", and every token a successful register or login
issues is signed with that same constant. -/
theorem default_secret_when_env_unset (env : Env) (st st2 : Store)
    (salt now now2 : Nat) (u e p u2 p2 : String) (h : env.jwtSecret = none) :
    signingKey env = "secret" ∧
    (∀ t usr st', register env st salt now u e p = (.success 201 t usr, st') →
      t.key = "secret") ∧
    (∀ t usr st', login env st2 now2 u2 p2 = (.success 200 t usr, st') →
      t.key = "secret") := by
  have hk : signingKey env = "secret" := by
    unfold signingKey
    rw [h]
  refine ⟨hk, ?_, ?_⟩
  · intro t usr st' hr
    obtain ⟨-, ht, -, -, -⟩ := register_success_inv hr
    subst ht
    exact hk
  · intro t usr st' hl
    obtain ⟨-, ht, -, -, -⟩ := login_success_inv hl
    subst ht
    exact hk

/-- Witness for C10 at a concrete environment with JWT_SECRET unset. -/
theorem default_secret_when_env_unset_witness :
    signingKey ⟨none⟩ = "secret" ∧
    (∀ t usr st',
      register ⟨none⟩ ⟨[], 0⟩ 0 0 "alice" "a@x.com" "pw123" =
        (.success 201 t usr, st') → t.key = "secret") ∧
    (∀ t usr st',
      login ⟨none⟩ ⟨[⟨0, "alice", "a@x.com", bcryptHash "pw123" 10 0, 0, 0, 0⟩], 1⟩
        5 "alice" "pw123" = (.success 200 t usr, st') → t.key = "secret") :=
  default_secret_when_env_unset ⟨none⟩ ⟨[], 0⟩
    ⟨[⟨0, "alice", "a@x.com", bcryptHash "pw123" 10 0, 0, 0, 0⟩], 1⟩
    0 0 5 "alice" "a@x.com" "pw123" "alice" "pw123" rfl
